import Mathlib

/-!
Verification of the `latencyresponder` workload against the ENS workload
runtime API (`ens.h`).

The workload consists of a single callback, `event_handler`, registered as
the ENS event function.  We give a shallow embedding of that callback: the
32-bit unsigned arguments are modelled as `Nat` (the code performs no
arithmetic on them, so no modular reduction is needed), the `ENSUserData`
descriptor is a structure holding the length field and the buffer address,
and the runtime API calls the callback performs are recorded in a trace
(a list of `ENSApiCall` values, in program order).  The external
`ENSSessionNotify` entry point has no body in the repository, so its
boolean result is supplied as an oracle parameter; the C code discards
that result.
-/

namespace LatencyResponder

/-- Embedding of the `ENSUserData` structure from `ens.h`: `length` is the
length of the data in the buffer, `p` the address of the start of the
buffer (a pointer in C, modelled as an abstract address). -/
structure ENSUserData where
  length : Nat
  p : Nat
  deriving DecidableEq, Repr

/-- One call to an ENS runtime API entry point, as declared in `ens.h`.
The callback under verification can in principle reach every entry point;
the trace records which ones it actually invokes and with which
arguments. -/
inductive ENSApiCall where
  /-- `ENSSessionStart(interface_name, event_fn)` (the event-function
  argument is irrelevant to the trace and omitted). -/
  | startCall (interfaceName : String) : ENSApiCall
  /-- `ENSSessionEnd(session_id)` -/
  | endCall (session_id : Nat) : ENSApiCall
  /-- `ENSSessionAbort(session_id, reason, info)` -/
  | abortCall (session_id : Nat) (reason : Nat) (info : String) : ENSApiCall
  /-- `ENSSessionRequest(session_id, sqn, userdata)` -/
  | requestCall (session_id : Nat) (sqn : Nat) (data : ENSUserData) : ENSApiCall
  /-- `ENSSessionNotify(session_id, sqn, userdata)` -/
  | notifyCall (session_id : Nat) (sqn : Nat) (data : ENSUserData) : ENSApiCall
  /-- `ENSSessionAlloc(length)` -/
  | allocCall (length : Nat) : ENSApiCall
  /-- `ENSSessionFree(data)` -/
  | freeCall (p : Nat) : ENSApiCall
  deriving DecidableEq, Repr

/-- Event type constant `EVENT_REQUEST` from `ens.h`. -/
def EVENT_REQUEST : Nat := 0

/-- Event type constant `EVENT_NOTIFY` from `ens.h`. -/
def EVENT_NOTIFY : Nat := 1

/-- Event type constant `EVENT_SESSION_START` from `ens.h`. -/
def EVENT_SESSION_START : Nat := 10

/-- Event type constant `EVENT_SESSION_END` from `ens.h`. -/
def EVENT_SESSION_END : Nat := 20

/-- Event type constant `EVENT_SESSION_DISCONNECT` from `ens.h`. -/
def EVENT_SESSION_DISCONNECT : Nat := 21

/-- Shallow embedding of `event_handler` from `latencyresponder.cpp`:

```
void event_handler(uint32_t session_id, uint32_t event_type, uint32_t sqn, ENSUserData* data)
{
  if (event_type == EVENT_NOTIFY)
  {
    ENSSessionNotify(session_id, sqn, data);
  }
}
```

`ensSessionNotify` is the (externally implemented) `ENSSessionNotify`
entry point, supplied as an oracle for its boolean result, which the C
code discards.  The embedding returns the final value of the `*data`
descriptor (the C function never writes to it) together with the trace of
runtime API calls made, in order. -/
def event_handler (ensSessionNotify : Nat → Nat → ENSUserData → Bool)
    (session_id : Nat) (event_type : Nat) (sqn : Nat) (data : ENSUserData) :
    ENSUserData × List ENSApiCall :=
  if event_type = EVENT_NOTIFY then
    let _ := ensSessionNotify session_id sqn data
    (data, [ENSApiCall.notifyCall session_id sqn data])
  else
    (data, [])

/-- State-passing form of the embedding.  `event_handler` in the source
names no global or static variable and dereferences only its own
arguments, so the translation to a state-passing embedding threads any
ambient mutable state `g : σ` through untouched. -/
def event_handler_world (σ : Type) (g : σ)
    (ensSessionNotify : Nat → Nat → ENSUserData → Bool)
    (session_id : Nat) (event_type : Nat) (sqn : Nat) (data : ENSUserData) :
    σ × ENSUserData × List ENSApiCall :=
  (g, event_handler ensSessionNotify session_id event_type sqn data)

/-- True when the call transfers responsibility for the buffer at address
`a` away from the callback: passing it to the runtime on a data transfer
API call (`ENSSessionRequest`/`ENSSessionNotify`) or freeing it with
`ENSSessionFree`. -/
def dischargesBuf (a : Nat) : ENSApiCall → Bool
  | ENSApiCall.requestCall _ _ d => d.p == a
  | ENSApiCall.notifyCall _ _ d => d.p == a
  | ENSApiCall.freeCall q => q == a
  | _ => false

/-- True when the call is `ENSSessionFree`. -/
def isFreeCall : ENSApiCall → Bool
  | ENSApiCall.freeCall _ => true
  | _ => false

/-- True when the call is `ENSSessionNotify`. -/
def isNotifyCall : ENSApiCall → Bool
  | ENSApiCall.notifyCall _ _ _ => true
  | _ => false

/-- The sequence number argument of a data transfer call (`0` for entry
points that take no sequence number). -/
def callSqn : ENSApiCall → Nat
  | ENSApiCall.requestCall _ q _ => q
  | ENSApiCall.notifyCall _ q _ => q
  | _ => 0

/-- True when the entry point blocks on remote completion.  Per the
`ens.h` documentation, `ENSSessionRequest` "blocks waiting for a
response" and `ENSSessionEnd` terminates the session (the spec lists
`request` and `end` as the blocking operations, and `notify`, `alloc`,
`free`, `start` as non-blocking). -/
def blocksOnRemote : ENSApiCall → Bool
  | ENSApiCall.requestCall _ _ _ => true
  | ENSApiCall.endCall _ => true
  | _ => false

/-- Modelled from the spec: the runtime's request/response round trip,
whose implementation is not in the repository (only `ens.h` declares it).
Workload A calls `request(session, sqn, data)`; the runtime delivers an
`EVENT_REQUEST` event with that session, sqn, and data descriptor to
workload B's callback; after the callback returns, the (possibly
replaced) user-data reference is packaged and sent back as the response,
and A's `request` returns `true` with that response.  Payload content is
modelled by a memory map `mem` from buffer address to payload string;
this suffices for callbacks (such as `event_handler`) that write no
memory. -/
def request_round_trip
    (callback : Nat → Nat → Nat → ENSUserData → ENSUserData × List ENSApiCall)
    (mem : Nat → String) (session : Nat) (sqn : Nat) (reqData : ENSUserData) :
    Bool × String :=
  let resp := (callback session EVENT_REQUEST sqn reqData).1
  (true, mem resp.p)

/-- A memory map for the round-trip scenario: the request buffer at
address 100 holds the payload `"ping"`. -/
def pingMem : Nat → String :=
  fun a => if a = 100 then "ping" else ""

/-- A concrete oracle for the external `ENSSessionNotify` result, used in
witnesses. -/
def notifyOk : Nat → Nat → ENSUserData → Bool :=
  fun _ _ _ => true

end LatencyResponder

namespace LatencyResponder

/-- C1: for every event with `event_type = EVENT_NOTIFY`, `event_handler`
calls `ENSSessionNotify` exactly once, passing the same `session_id`, the
same `sqn` and the same userdata descriptor pointer it received, and
performs no other runtime API call: its trace is exactly that single
notify call. -/
theorem C1_notify_echoed_exactly_once
    (r : Nat → Nat → ENSUserData → Bool) (s : Nat) (q : Nat) (d : ENSUserData) :
    (event_handler r s EVENT_NOTIFY q d).2 = [ENSApiCall.notifyCall s q d] := by
  simp [event_handler]

/-- C2: for every `EVENT_REQUEST` event, `event_handler` returns with the
`ENSUserData` descriptor unchanged and makes no runtime API call; hence
the response the runtime packages after the callback returns references
the request buffer, so it carries the request payload unchanged (stated
via the spec-modelled `request_round_trip`, for every memory map). -/
theorem C2_request_echoed_unchanged
    (r : Nat → Nat → ENSUserData → Bool) (mem : Nat → String)
    (s : Nat) (q : Nat) (d : ENSUserData) :
    (event_handler r s EVENT_REQUEST q d).1 = d ∧
    (event_handler r s EVENT_REQUEST q d).2 = [] ∧
    request_round_trip (event_handler r) mem s q d = (true, mem d.p) := by
  refine ⟨?_, ?_, ?_⟩ <;> simp [event_handler, request_round_trip, EVENT_REQUEST, EVENT_NOTIFY]

/-- C3: for every `EVENT_NOTIFY` event, `event_handler` preserves the
single-owner buffer invariant: exactly one call in its trace discharges
responsibility for the received buffer, that call is the
`ENSSessionNotify` echo itself (reuse, not an `ENSSessionFree`), it is
the last action before returning so the buffer is never touched
afterwards, and the entire behaviour is independent of the boolean result
of `ENSSessionNotify`, so no path leaks or double-frees the buffer. -/
theorem C3_notify_buffer_ownership
    (r r' : Nat → Nat → ENSUserData → Bool) (s : Nat) (q : Nat) (d : ENSUserData) :
    ((event_handler r s EVENT_NOTIFY q d).2.countP (fun c => dischargesBuf d.p c) = 1) ∧
    ((event_handler r s EVENT_NOTIFY q d).2.countP (fun c => isFreeCall c) = 0) ∧
    ((event_handler r s EVENT_NOTIFY q d).2 = [ENSApiCall.notifyCall s q d]) ∧
    event_handler r s EVENT_NOTIFY q d = event_handler r' s EVENT_NOTIFY q d := by
  refine ⟨?_, ?_, ?_, ?_⟩ <;>
    simp [event_handler, dischargesBuf, isFreeCall, List.countP, List.countP.go]

/-- C4: for every event whose type is neither `EVENT_NOTIFY` nor
`EVENT_REQUEST` — in particular the lifecycle kinds
`EVENT_SESSION_START`, `EVENT_SESSION_END`, `EVENT_SESSION_DISCONNECT`
and any value outside the enumerated kinds — `event_handler` makes no
runtime API call and returns with the userdata descriptor unchanged. -/
theorem C4_other_events_no_effect
    (r : Nat → Nat → ENSUserData → Bool) (s : Nat) (t : Nat) (q : Nat) (d : ENSUserData)
    (hn : t ≠ EVENT_NOTIFY) (hr : t ≠ EVENT_REQUEST) :
    event_handler r s t q d = (d, []) := by
  simp [event_handler, hn]

/-- C4 witness: the lifecycle kind `EVENT_SESSION_START` satisfies both
hypotheses and the handler does nothing on it. -/
theorem C4_other_events_no_effect_witness :
    event_handler notifyOk 3 EVENT_SESSION_START 0 ⟨2, 100⟩ = (⟨2, 100⟩, []) :=
  C4_other_events_no_effect notifyOk 3 EVENT_SESSION_START 0 ⟨2, 100⟩
    (by decide) (by decide)

/-- C5: for every `EVENT_NOTIFY` event whose sequence number is non-zero
(as the runtime guarantees for data transfer events), every
`ENSSessionNotify` call made by `event_handler` — indeed every call in
its trace — carries a non-zero sequence number, as required for
data-transfer sends. -/
theorem C5_nonzero_sqn_propagated
    (r : Nat → Nat → ENSUserData → Bool) (s : Nat) (q : Nat) (d : ENSUserData)
    (hq : q ≠ 0) :
    (event_handler r s EVENT_NOTIFY q d).2.all (fun c => callSqn c != 0) = true := by
  simp [event_handler, callSqn, hq]

/-- C5 witness: at the concrete notify event with `sqn = 5` the echoed
call's sequence number is non-zero. -/
theorem C5_nonzero_sqn_propagated_witness :
    (event_handler notifyOk 7 EVENT_NOTIFY 5 ⟨2, 100⟩).2.all
      (fun c => callSqn c != 0) = true :=
  C5_nonzero_sqn_propagated notifyOk 7 5 ⟨2, 100⟩ (by decide)

/-- C6: `event_handler` reads and writes no mutable shared state: in the
state-passing embedding it returns the ambient state unchanged, and its
result and trace are the same function of the arguments for every
ambient state and every external notify result, so any two invocations
with identical arguments perform exactly the same sequence of actions
and concurrent invocations for the same session cannot interfere. -/
theorem C6_stateless_deterministic
    (σ : Type) (g g' : σ) (r r' : Nat → Nat → ENSUserData → Bool)
    (s : Nat) (t : Nat) (q : Nat) (d : ENSUserData) :
    (event_handler_world σ g r s t q d).1 = g ∧
    (event_handler_world σ g r s t q d).2 = (event_handler_world σ g' r' s t q d).2 := by
  constructor
  · rfl
  · simp only [event_handler_world, event_handler]

/-- C7: `event_handler` never blocks on remote completion: on every path
every runtime API call in its trace is an `ENSSessionNotify` (a
non-blocking operation), and none is one of the blocking operations
`ENSSessionRequest` or `ENSSessionEnd`. -/
theorem C7_never_blocks
    (r : Nat → Nat → ENSUserData → Bool) (s : Nat) (t : Nat) (q : Nat) (d : ENSUserData) :
    (event_handler r s t q d).2.all
      (fun c => isNotifyCall c && !blocksOnRemote c) = true := by
  by_cases h : t = EVENT_NOTIFY <;>
    simp [event_handler, h, isNotifyCall, blocksOnRemote]

/-- C8 counterexample: in the round-trip scenario with this workload as
workload B, A calls `request(session=7, sqn=42)` with a buffer at address
100 holding `"ping"`; B's `event_handler` leaves the descriptor
unchanged, so A's `request` returns `true` with payload `"ping"`, not
`"pong"` as the claim states. -/
theorem C8_round_trip_not_pong :
    request_round_trip (event_handler notifyOk) pingMem 7 42 ⟨4, 100⟩ = (true, "ping") ∧
    (request_round_trip (event_handler notifyOk) pingMem 7 42 ⟨4, 100⟩).2 ≠ "pong" := by
  constructor
  · rfl
  · decide

/-- C8 amended: in the round-trip scenario with this workload as
workload B, when A calls `request(session=7, sqn=42, data="ping")`, B's
callback receives the `EVENT_REQUEST` event and returns with the userdata
unchanged, so A's `request` returns `true` with userdata `"ping"` (the
request payload echoed back unchanged); this holds for every external
notify oracle. -/
theorem C8_round_trip_echoes_ping (r : Nat → Nat → ENSUserData → Bool) :
    (event_handler r 7 EVENT_REQUEST 42 ⟨4, 100⟩).1 = ⟨4, 100⟩ ∧
    request_round_trip (event_handler r) pingMem 7 42 ⟨4, 100⟩ = (true, "ping") := by
  constructor
  · simp [event_handler, EVENT_REQUEST, EVENT_NOTIFY]
  · simp [request_round_trip, event_handler, EVENT_REQUEST, EVENT_NOTIFY, pingMem]

/-- C9: `event_handler` terminates on every argument tuple: its shallow
embedding is a total function whose value is completely characterised by
one of two cases — the notify echo when `event_type = EVENT_NOTIFY`, and
the identity result with an empty trace otherwise. -/
theorem C9_total_characterisation
    (r : Nat → Nat → ENSUserData → Bool) (s : Nat) (t : Nat) (q : Nat) (d : ENSUserData) :
    (t = EVENT_NOTIFY ∧
      event_handler r s t q d = (d, [ENSApiCall.notifyCall s q d])) ∨
    (t ≠ EVENT_NOTIFY ∧ event_handler r s t q d = (d, [])) := by
  by_cases h : t = EVENT_NOTIFY
  · exact Or.inl ⟨h, by simp [event_handler, h]⟩
  · exact Or.inr ⟨h, by simp [event_handler, h]⟩

end LatencyResponder
